import Mathlib

/-!
Shallow embedding of the isucon14 ride-hailing backend (Go sources under
`src/app/go` and `src/unnamed`), together with theorems settling the frozen
claims about its specification.

Conventions of the embedding:
* Go `int` becomes `Int`; timestamps are milliseconds as `Int` or insertion
  sequence numbers as `Nat`.
* Go `float64` score arithmetic in the dispatcher becomes exact `Rat`
  arithmetic (the claims are about the formulas, not rounding).
* Database tables become lists of rows; `ORDER BY created_at` orderings are
  represented through explicit `createdAt`/`seq` fields.
* HTTP handlers become pure functions from a database snapshot and the
  request data to a result record holding the HTTP status code and every
  observable effect (committed rows, cache stores, published events).
  `defer tx.Rollback()` semantics: on an error path the returned database
  equals the input database.
-/

namespace Isuride

/-- Integer grid coordinate (`Coordinate` in `models.go`). -/
structure Coordinate where
  latitude : Int
  longitude : Int
  deriving Repr, DecidableEq

/-- `abs` from `app_handlers.go`. -/
def goAbs (a : Int) : Int := if a < 0 then -a else a

/-- `calculateDistance` from `app_handlers.go`: Manhattan distance. -/
def calculateDistance (aLatitude aLongitude bLatitude bLongitude : Int) : Int :=
  goAbs (aLatitude - bLatitude) + goAbs (aLongitude - bLongitude)

/-- `distance` from `chair_handlers.go` (same Manhattan distance). -/
def distance (lat1 lon1 lat2 lon2 : Int) : Int :=
  goAbs (lat1 - lat2) + goAbs (lon1 - lon2)

/-- `initialFare` from `owner_handlers.go`. -/
def initialFare : Int := 500

/-- `farePerDistance` from `owner_handlers.go`. -/
def farePerDistance : Int := 100

/-- `calculateFare` from `app_handlers.go`: gross (undiscounted) fare. -/
def calculateFare (pickupLatitude pickupLongitude destLatitude destLongitude : Int) : Int :=
  let meteredFare := farePerDistance *
    calculateDistance pickupLatitude pickupLongitude destLatitude destLongitude
  initialFare + meteredFare

/-- A row of the `coupons` table. -/
structure Coupon where
  userId : String
  code : String
  discount : Int
  usedBy : Option String
  createdAt : Nat
  deriving Repr, DecidableEq

/-- `SELECT * FROM coupons WHERE user_id = ? AND used_by IS NULL ORDER BY
created_at LIMIT 1`: the oldest unused coupon of the user (ties resolved to
the earliest row in table order, a canonical choice for the unspecified SQL
tie order). -/
def oldestUnusedCoupon (coupons : List Coupon) (userId : String) : Option Coupon :=
  (coupons.filter (fun c => c.userId == userId && c.usedBy == none)).foldl
    (fun acc c =>
      match acc with
      | none => some c
      | some b => if c.createdAt < b.createdAt then some c else some b)
    none

/-- Coupon-selection part of `calculateDiscountedFare` for the `ride == nil`
path (fare estimate): the unused `CP_NEW2024` coupon first, else the oldest
unused coupon, else no discount. -/
def selectEstimateDiscount (coupons : List Coupon) (userId : String) : Int :=
  match coupons.find? (fun c =>
      c.userId == userId && c.code == "CP_NEW2024" && c.usedBy == none) with
  | some c => c.discount
  | none =>
    match oldestUnusedCoupon coupons userId with
    | some c => c.discount
    | none => 0

/-- Final arithmetic of `calculateDiscountedFare` in `app_handlers.go`, once
the discount has been resolved:
`initialFare + max(meteredFare - discount, 0)`. -/
def fareWithDiscount (pickupLatitude pickupLongitude destLatitude destLongitude discount : Int) :
    Int :=
  let meteredFare := farePerDistance *
    calculateDistance pickupLatitude pickupLongitude destLatitude destLongitude
  let discountedMeteredFare := max (meteredFare - discount) 0
  initialFare + discountedMeteredFare

/-- `calculateDiscountedFare` with `ride == nil` (the estimated-fare path). -/
def calculateDiscountedFareEstimate (coupons : List Coupon) (userId : String)
    (pickupLatitude pickupLongitude destLatitude destLongitude : Int) : Int :=
  fareWithDiscount pickupLatitude pickupLongitude destLatitude destLongitude
    (selectEstimateDiscount coupons userId)

/-- Coupon lookup of `calculateDiscountedFare` for the `ride != nil` path:
`SELECT * FROM coupons WHERE used_by = ?`. -/
def rideDiscount (coupons : List Coupon) (rideId : String) : Int :=
  match coupons.find? (fun c => c.usedBy == some rideId) with
  | some c => c.discount
  | none => 0

/-- `calculateDiscountedFare` with `ride != nil`: coordinates are taken from
the ride row and the discount from the coupon bound to the ride. -/
def calculateDiscountedFareRide (coupons : List Coupon) (rideId : String)
    (pickupLatitude pickupLongitude destLatitude destLongitude : Int) : Int :=
  fareWithDiscount pickupLatitude pickupLongitude destLatitude destLongitude
    (rideDiscount coupons rideId)

/-- Response of `appPostRidesEstimatedFare`: `(fare, discount)` where
`discount = calculateFare(...) - discounted`. -/
def appPostRidesEstimatedFare (coupons : List Coupon) (userId : String)
    (pickupLatitude pickupLongitude destLatitude destLongitude : Int) : Int × Int :=
  let discounted := calculateDiscountedFareEstimate coupons userId
    pickupLatitude pickupLongitude destLatitude destLongitude
  (discounted,
    calculateFare pickupLatitude pickupLongitude destLatitude destLongitude - discounted)

lemma goAbs_nonneg (a : Int) : 0 ≤ goAbs a := by
  unfold goAbs; split <;> omega

lemma calculateDistance_nonneg (aLat aLon bLat bLon : Int) :
    0 ≤ calculateDistance aLat aLon bLat bLon := by
  unfold calculateDistance
  have h1 := goAbs_nonneg (aLat - bLat)
  have h2 := goAbs_nonneg (aLon - bLon)
  omega

lemma calculateFare_eq (pLat pLon dLat dLon : Int) :
    calculateFare pLat pLon dLat dLon = 500 + 100 * calculateDistance pLat pLon dLat dLon := rfl

lemma fareWithDiscount_eq (pLat pLon dLat dLon d : Int) :
    fareWithDiscount pLat pLon dLat dLon d =
      500 + max (100 * calculateDistance pLat pLon dLat dLon - d) 0 := rfl

lemma fareWithDiscount_eq_max (pLat pLon dLat dLon d : Int) :
    fareWithDiscount pLat pLon dLat dLon d =
      max initialFare
        (initialFare + farePerDistance * calculateDistance pLat pLon dLat dLon - d) := by
  rw [fareWithDiscount_eq]
  show _ = max (500 : Int) (500 + 100 * calculateDistance pLat pLon dLat dLon - d)
  rcases le_total (100 * calculateDistance pLat pLon dLat dLon - d) 0 with h | h
  · rw [max_eq_right h, max_eq_left (by omega)]
    omega
  · rw [max_eq_left h, max_eq_right (by omega)]
    omega

lemma initialFare_le_fareWithDiscount (pLat pLon dLat dLon d : Int) :
    initialFare ≤ fareWithDiscount pLat pLon dLat dLon d := by
  rw [fareWithDiscount_eq]
  have : (0 : Int) ≤ max (100 * calculateDistance pLat pLon dLat dLon - d) 0 :=
    le_max_right _ _
  show (500 : Int) ≤ _
  omega

/-- C3: with applied coupon discount `d ≥ 0`, the computed fare equals
`max(baseFare, baseFare + perDistance·manhattan(pickup,dest) − d)` with
`baseFare = 500`, `perDistance = 100`; moreover the fare returned on both the
estimate path and the ride path is never below 500, whatever the coupon
state. -/
theorem fare_contract (pLat pLon dLat dLon d : Int) (hd : 0 ≤ d) :
    fareWithDiscount pLat pLon dLat dLon d =
      max 500 (500 + 100 * calculateDistance pLat pLon dLat dLon - d) ∧
    500 ≤ fareWithDiscount pLat pLon dLat dLon d ∧
    (∀ (coupons : List Coupon) (userId : String),
      500 ≤ calculateDiscountedFareEstimate coupons userId pLat pLon dLat dLon) ∧
    (∀ (coupons : List Coupon) (rideId : String),
      500 ≤ calculateDiscountedFareRide coupons rideId pLat pLon dLat dLon) := by
  refine ⟨?_, ?_, ?_, ?_⟩
  · simpa [initialFare, farePerDistance] using fareWithDiscount_eq_max pLat pLon dLat dLon d
  · simpa [initialFare] using initialFare_le_fareWithDiscount pLat pLon dLat dLon d
  · intro coupons userId
    simpa [initialFare, calculateDiscountedFareEstimate] using
      initialFare_le_fareWithDiscount pLat pLon dLat dLon (selectEstimateDiscount coupons userId)
  · intro coupons rideId
    simpa [initialFare, calculateDiscountedFareRide] using
      initialFare_le_fareWithDiscount pLat pLon dLat dLon (rideDiscount coupons rideId)

/-- Witness for `fare_contract` at pickup (0,0), destination (3,4), discount 200. -/
theorem fare_contract_witness :
    (0 : Int) ≤ 200 ∧
    (fareWithDiscount 0 0 3 4 200 =
        max 500 (500 + 100 * calculateDistance 0 0 3 4 - 200) ∧
      500 ≤ fareWithDiscount 0 0 3 4 200 ∧
      (∀ (coupons : List Coupon) (userId : String),
        500 ≤ calculateDiscountedFareEstimate coupons userId 0 0 3 4) ∧
      (∀ (coupons : List Coupon) (rideId : String),
        500 ≤ calculateDiscountedFareRide coupons rideId 0 0 3 4)) :=
  ⟨by decide, fare_contract 0 0 3 4 200 (by decide)⟩

/-- C10: the estimated-fare response satisfies
`fare + discount = 500 + 100·manhattan(pickup, destination)`, the returned
discount is definitionally the gross fare minus the discounted fare, and the
discount never exceeds the metered portion `100·manhattan(pickup,
destination)`, for every pickup/destination pair and every coupon state. -/
theorem estimated_fare_algebra (coupons : List Coupon) (userId : String)
    (pLat pLon dLat dLon : Int) :
    (appPostRidesEstimatedFare coupons userId pLat pLon dLat dLon).1 +
        (appPostRidesEstimatedFare coupons userId pLat pLon dLat dLon).2 =
      500 + 100 * calculateDistance pLat pLon dLat dLon ∧
    (appPostRidesEstimatedFare coupons userId pLat pLon dLat dLon).2 =
      calculateFare pLat pLon dLat dLon -
        (appPostRidesEstimatedFare coupons userId pLat pLon dLat dLon).1 ∧
    (appPostRidesEstimatedFare coupons userId pLat pLon dLat dLon).2 ≤
      100 * calculateDistance pLat pLon dLat dLon := by
  refine ⟨?_, ?_, ?_⟩
  · simp only [appPostRidesEstimatedFare, calculateFare_eq]
    omega
  · simp [appPostRidesEstimatedFare]
  · have h := initialFare_le_fareWithDiscount pLat pLon dLat dLon
      (selectEstimateDiscount coupons userId)
    rw [initialFare] at h
    simp only [appPostRidesEstimatedFare, calculateDiscountedFareEstimate, calculateFare_eq]
    omega

/-! ### Location store (`badger.go`, C6) -/

/-- `chairLocation` record stored in the badger KV store (`badger.go`). -/
structure chairLocation where
  TotalDistance : Int
  LastLatitude : Int
  LastLongitude : Int
  TotalDistanceUpdatedAt : Int
  deriving Repr, DecidableEq

/-- Core of `updateChairLocationToBadger` (`badger.go`): absent record is
created as `{0, newLat, newLon, now}`; an existing record accumulates the
Manhattan distance from the previous coordinate and replaces it. -/
def updateChairLocationToBadger (prev : Option chairLocation) (coodinate : Coordinate)
    (nowMs : Int) : chairLocation :=
  match prev with
  | none =>
    { TotalDistance := 0
      LastLatitude := coodinate.latitude
      LastLongitude := coodinate.longitude
      TotalDistanceUpdatedAt := nowMs }
  | some location =>
    { TotalDistance := location.TotalDistance +
        distance location.LastLatitude location.LastLongitude
          coodinate.latitude coodinate.longitude
      LastLatitude := coodinate.latitude
      LastLongitude := coodinate.longitude
      TotalDistanceUpdatedAt := nowMs }

/-- One chair's stored location after a sequence of coordinate pings
(each paired with its wall-clock time), starting from an absent record. -/
def applyPings (pings : List (Coordinate × Int)) : Option chairLocation :=
  pings.foldl (fun acc p => some (updateChairLocationToBadger acc p.1 p.2)) none

/-- Sum of Manhattan distances between consecutive coordinates. -/
def pathDistance : List Coordinate → Int
  | a :: b :: rest =>
    distance a.latitude a.longitude b.latitude b.longitude + pathDistance (b :: rest)
  | _ => 0

/-- Total distance stored after a ping sequence (0 for the absent record). -/
def totalDistanceAfter (pings : List (Coordinate × Int)) : Int :=
  match applyPings pings with
  | none => 0
  | some l => l.TotalDistance

/-- Recursive view of the fold once a record exists. -/
def runFrom (l : chairLocation) : List (Coordinate × Int) → chairLocation
  | [] => l
  | p :: ps => runFrom (updateChairLocationToBadger (some l) p.1 p.2) ps

lemma distance_nonneg (a b c d : Int) : 0 ≤ distance a b c d := by
  unfold distance
  have h1 := goAbs_nonneg (a - c)
  have h2 := goAbs_nonneg (b - d)
  omega

lemma foldl_update_some (ps : List (Coordinate × Int)) :
    ∀ l : chairLocation,
      ps.foldl (fun acc p => some (updateChairLocationToBadger acc p.1 p.2)) (some l) =
        some (runFrom l ps) := by
  induction ps with
  | nil => intro l; rfl
  | cons p ps ih => intro l; simp [List.foldl_cons, runFrom, ih]

lemma runFrom_totalDistance (ps : List (Coordinate × Int)) :
    ∀ l : chairLocation,
      (runFrom l ps).TotalDistance =
        l.TotalDistance +
          pathDistance (⟨l.LastLatitude, l.LastLongitude⟩ :: ps.map Prod.fst) := by
  induction ps with
  | nil => intro l; simp [runFrom, pathDistance]
  | cons p ps ih =>
    intro l
    simp only [runFrom, updateChairLocationToBadger, List.map_cons]
    rw [ih]
    simp only [pathDistance]
    ring

lemma runFrom_lastCoord (ps : List (Coordinate × Int)) :
    ∀ l : chairLocation,
      (runFrom l ps).LastLatitude =
          ((ps.map Prod.fst).getLastD ⟨l.LastLatitude, l.LastLongitude⟩).latitude ∧
        (runFrom l ps).LastLongitude =
          ((ps.map Prod.fst).getLastD ⟨l.LastLatitude, l.LastLongitude⟩).longitude := by
  induction ps with
  | nil => intro l; simp [runFrom]
  | cons p ps ih =>
    intro l
    simp only [runFrom, updateChairLocationToBadger, List.map_cons, List.getLastD_cons]
    exact ih _

lemma optTotal_step (acc : Option chairLocation) (p : Coordinate × Int) :
    (match acc with | none => (0 : Int) | some l => l.TotalDistance) ≤
      (updateChairLocationToBadger acc p.1 p.2).TotalDistance := by
  cases acc with
  | none => simp [updateChairLocationToBadger]
  | some l =>
    simp only [updateChairLocationToBadger]
    have := distance_nonneg l.LastLatitude l.LastLongitude p.1.latitude p.1.longitude
    omega

lemma optTotal_foldl (qs : List (Coordinate × Int)) :
    ∀ acc : Option chairLocation,
      (match acc with | none => (0 : Int) | some l => l.TotalDistance) ≤
        (match qs.foldl (fun acc p => some (updateChairLocationToBadger acc p.1 p.2)) acc with
          | none => (0 : Int) | some l => l.TotalDistance) := by
  induction qs with
  | nil => intro acc; exact le_refl _
  | cons q qs ih =>
    intro acc
    calc (match acc with | none => (0 : Int) | some l => l.TotalDistance) ≤
        (updateChairLocationToBadger acc q.1 q.2).TotalDistance := optTotal_step acc q
      _ ≤ _ := ih (some (updateChairLocationToBadger acc q.1 q.2))

/-- C6: after pings at coordinates `c0, c1, ..., cN` starting from an absent
record, the stored `totalDistance` equals `Σ_{i=1..N} manhattan(c_{i-1}, c_i)`,
`lastLat`/`lastLon` hold the most recently pinged coordinate, and
`totalDistance` never decreases when further pings are appended. -/
theorem chair_location_aggregate (c : Coordinate) (t : Int) (rest : List (Coordinate × Int)) :
    (∃ loc, applyPings ((c, t) :: rest) = some loc ∧
      loc.TotalDistance = pathDistance (c :: rest.map Prod.fst) ∧
      loc.LastLatitude = ((rest.map Prod.fst).getLastD c).latitude ∧
      loc.LastLongitude = ((rest.map Prod.fst).getLastD c).longitude) ∧
    (∀ ps qs : List (Coordinate × Int),
      totalDistanceAfter ps ≤ totalDistanceAfter (ps ++ qs)) := by
  constructor
  · refine ⟨runFrom ⟨0, c.latitude, c.longitude, t⟩ rest, ?_, ?_, ?_, ?_⟩
    · simp only [applyPings, List.foldl_cons]
      exact foldl_update_some rest _
    · rw [runFrom_totalDistance]
      simp
    · exact (runFrom_lastCoord rest _).1
    · exact (runFrom_lastCoord rest _).2
  · intro ps qs
    unfold totalDistanceAfter applyPings
    rw [List.foldl_append]
    exact optTotal_foldl qs _

/-! ### Payment gateway client (`src/unnamed/part_001`, C7) -/

/-- One HTTP POST sent to the payment gateway: the `Idempotency-Key` header
it carries and the index of the attempt. -/
structure PaymentAttempt where
  idempotencyKey : String
  attemptIndex : Nat
  deriving Repr, DecidableEq

/-- Retry loop of `requestPaymentGatewayPostPayment`
(`src/unnamed/part_001`): attempt `i` succeeds iff the gateway's response to
it is HTTP 204 No Content (any other status code, and any transport failure
encoded as a non-204 code, is an error); an error retries while `retry < 5`,
else the error is returned. Returns whether the logical call succeeded and
the list of requests actually sent. -/
def paymentLoop (resp : Nat → Nat) (idempotencyKey : String) :
    Nat → Nat → Bool × List PaymentAttempt
  | attemptIndex, 0 =>
    if resp attemptIndex = 204 then (true, [⟨idempotencyKey, attemptIndex⟩])
    else (false, [⟨idempotencyKey, attemptIndex⟩])
  | attemptIndex, retriesLeft + 1 =>
    if resp attemptIndex = 204 then (true, [⟨idempotencyKey, attemptIndex⟩])
    else
      ((paymentLoop resp idempotencyKey (attemptIndex + 1) retriesLeft).1,
        ⟨idempotencyKey, attemptIndex⟩ ::
          (paymentLoop resp idempotencyKey (attemptIndex + 1) retriesLeft).2)

/-- `requestPaymentGatewayPostPayment`: a single idempotency key is generated
(`ulid.Make()`) before the loop, which then allows the initial request plus
up to five retries. -/
def requestPaymentGatewayPostPayment (resp : Nat → Nat) (idempotencyKey : String) :
    Bool × List PaymentAttempt :=
  paymentLoop resp idempotencyKey 0 5

lemma paymentLoop_success_iff (resp : Nat → Nat) (key : String) (n : Nat) :
    ∀ i, (paymentLoop resp key i n).1 = true ↔ ∃ j ≤ n, resp (i + j) = 204 := by
  induction n with
  | zero =>
    intro i
    constructor
    · intro htrue
      refine ⟨0, le_refl 0, ?_⟩
      rw [Nat.add_zero]
      by_cases h : resp i = 204
      · exact h
      · simp [paymentLoop, h] at htrue
    · rintro ⟨j, hj, hr⟩
      have hj0 : j = 0 := Nat.le_zero.mp hj
      subst hj0
      rw [Nat.add_zero] at hr
      simp [paymentLoop, hr]
  | succ n ih =>
    intro i
    by_cases h : resp i = 204
    · constructor
      · intro _
        exact ⟨0, by omega, by rw [Nat.add_zero]; exact h⟩
      · intro _
        simp [paymentLoop, h]
    · have hstep : (paymentLoop resp key i (n + 1)).1 = (paymentLoop resp key (i + 1) n).1 := by
        simp [paymentLoop, h]
      rw [hstep, ih (i + 1)]
      constructor
      · rintro ⟨j, hj, hr⟩
        exact ⟨j + 1, by omega, by rw [show i + (j + 1) = i + 1 + j by omega]; exact hr⟩
      · rintro ⟨j, hj, hr⟩
        match j, hj, hr with
        | 0, _, hr =>
          rw [Nat.add_zero] at hr
          exact absurd hr h
        | j + 1, hj, hr =>
          exact ⟨j, by omega, by rw [show i + 1 + j = i + (j + 1) by omega]; exact hr⟩

lemma paymentLoop_keys (resp : Nat → Nat) (key : String) (n : Nat) :
    ∀ i, ∀ a ∈ (paymentLoop resp key i n).2, a.idempotencyKey = key := by
  induction n with
  | zero =>
    intro i a ha
    by_cases h : resp i = 204 <;>
      · simp [paymentLoop, h] at ha
        subst ha
        rfl
  | succ n ih =>
    intro i a ha
    by_cases h : resp i = 204
    · simp [paymentLoop, h] at ha
      subst ha
      rfl
    · simp only [paymentLoop, if_neg h, List.mem_cons] at ha
      rcases ha with ha | ha
      · subst ha
        rfl
      · exact ih (i + 1) a ha

/-- C7: one logical payment-gateway call succeeds iff some attempt among the
initial request and up to five retries returns HTTP 204; every request sent
during that logical call carries the same idempotency key, generated once
before the loop; and when the retries are exhausted without a 204 the error
is surfaced (the call reports failure). -/
theorem payment_gateway_retry (resp : Nat → Nat) (idempotencyKey : String) :
    ((requestPaymentGatewayPostPayment resp idempotencyKey).1 = true ↔
      ∃ i ≤ 5, resp i = 204) ∧
    (∀ a ∈ (requestPaymentGatewayPostPayment resp idempotencyKey).2,
      a.idempotencyKey = idempotencyKey) ∧
    ((∀ i ≤ 5, resp i ≠ 204) →
      (requestPaymentGatewayPostPayment resp idempotencyKey).1 = false) := by
  refine ⟨?_, ?_, ?_⟩
  · simpa using paymentLoop_success_iff resp idempotencyKey 5 0
  · exact paymentLoop_keys resp idempotencyKey 5 0
  · intro h
    by_contra hcon
    have h1 : (requestPaymentGatewayPostPayment resp idempotencyKey).1 = true := by
      revert hcon
      cases (requestPaymentGatewayPostPayment resp idempotencyKey).1 <;> simp
    obtain ⟨i, hi, hr⟩ := (paymentLoop_success_iff resp idempotencyKey 5 0).mp h1
    exact h i (by omega) (by simpa using hr)

/-- Witness for `payment_gateway_retry`: a gateway that always answers 500
exhausts the retries and the call reports failure. -/
theorem payment_gateway_retry_witness :
    (∀ i ≤ 5, (fun _ => 500 : Nat → Nat) i ≠ 204) ∧
    (requestPaymentGatewayPostPayment (fun _ => 500) "01J8ULID").1 = false :=
  ⟨by decide, (payment_gateway_retry (fun _ => 500) "01J8ULID").2.2 (by decide)⟩

/-! ### Ride creation (`app_handlers.go`: `countOngoingRides`, `appPostRides`; C2) -/

/-- A row of the `rides` table. -/
structure Ride where
  id : String
  userId : String
  chairId : Option String
  pickupLatitude : Int
  pickupLongitude : Int
  destinationLatitude : Int
  destinationLongitude : Int
  evaluation : Option Int
  createdAt : Int
  updatedAt : Int
  deriving Repr, DecidableEq

/-- A row of the `ride_statuses` table; `seq` stands for `created_at`
(rows are inserted with strictly increasing timestamps). -/
structure RideStatusRow where
  rideId : String
  status : String
  seq : Nat
  deriving Repr, DecidableEq

/-- `SELECT MAX(rs2.created_at) FROM ride_statuses rs2 WHERE rs2.ride_id = r.id`. -/
def latestSeq (statuses : List RideStatusRow) (rideId : String) : Option Nat :=
  ((statuses.filter (fun s => s.rideId == rideId)).map (fun s => s.seq)).max?

/-- `countOngoingRides` (`app_handlers.go`): the row count of the join of the
user's rides with their latest status row, keeping rows whose status is not
`COMPLETED`. -/
def countOngoingRides (rides : List Ride) (statuses : List RideStatusRow)
    (userId : String) : Nat :=
  ((rides.filter (fun r => r.userId == userId)).map (fun r =>
    (statuses.filter (fun s =>
      s.rideId == r.id && latestSeq statuses r.id == some s.seq &&
        s.status != "COMPLETED")).length)).sum

/-- Relational state touched by `appPostRides`. -/
structure RideDb where
  rides : List Ride
  statuses : List RideStatusRow
  coupons : List Coupon
  deriving Repr, DecidableEq

/-- `UPDATE coupons SET used_by = ? WHERE user_id = ? AND code = ?`
(note: the `WHERE` clause has no `used_by IS NULL` guard, so every row of the
user with that code is bound). -/
def bindCouponRows (coupons : List Coupon) (userId code rideId : String) : List Coupon :=
  coupons.map (fun c =>
    if c.userId == userId && c.code == code then { c with usedBy := some rideId } else c)

/-- Coupon-binding block of `appPostRides`: on the user's first ride the
unused `CP_NEW2024` coupon is bound if present, otherwise (and on later
rides) the oldest unused coupon is bound; no coupon means no change. -/
def bindRideCoupon (coupons : List Coupon) (userId rideId : String)
    (firstRide : Bool) : List Coupon :=
  if firstRide then
    match coupons.find? (fun c =>
        c.userId == userId && c.code == "CP_NEW2024" && c.usedBy == none) with
    | some _ => bindCouponRows coupons userId "CP_NEW2024" rideId
    | none =>
      match oldestUnusedCoupon coupons userId with
      | none => coupons
      | some c => bindCouponRows coupons userId c.code rideId
  else
    match oldestUnusedCoupon coupons userId with
    | none => coupons
    | some c => bindCouponRows coupons userId c.code rideId

/-- `appPostRides` (`app_handlers.go`) after request validation: returns the
HTTP status code and the committed relational state. `409 conflict` rolls the
transaction back, leaving the state untouched; otherwise the ride row and its
`MATCHING` status row are inserted and a coupon is bound. -/
def appPostRides (db : RideDb) (userId rideId : String)
    (pickup destination : Coordinate) (nowMs : Int) (statusSeq : Nat) : Nat × RideDb :=
  if countOngoingRides db.rides db.statuses userId > 0 then
    (409, db)
  else
    let ride : Ride :=
      { id := rideId, userId := userId, chairId := none
        pickupLatitude := pickup.latitude, pickupLongitude := pickup.longitude
        destinationLatitude := destination.latitude
        destinationLongitude := destination.longitude
        evaluation := none, createdAt := nowMs, updatedAt := nowMs }
    let rides1 := db.rides ++ [ride]
    let statuses1 := db.statuses ++ [⟨rideId, "MATCHING", statusSeq⟩]
    let rideCount := (rides1.filter (fun r => r.userId == userId)).length
    (202,
      { rides := rides1
        statuses := statuses1
        coupons := bindRideCoupon db.coupons userId rideId (rideCount == 1) })

lemma countOngoingRides_pos (rides : List Ride) (statuses : List RideStatusRow)
    (userId : String) (r : Ride) (s : RideStatusRow)
    (hr : r ∈ rides) (hu : r.userId = userId)
    (hs : s ∈ statuses) (hsr : s.rideId = r.id)
    (hlatest : latestSeq statuses r.id = some s.seq)
    (hstatus : s.status ≠ "COMPLETED") :
    0 < countOngoingRides rides statuses userId := by
  unfold countOngoingRides
  have hrmem : r ∈ rides.filter (fun r => r.userId == userId) := by
    rw [List.mem_filter]
    exact ⟨hr, by simp [hu]⟩
  have hsmem : s ∈ statuses.filter (fun t =>
      t.rideId == r.id && latestSeq statuses r.id == some t.seq &&
        t.status != "COMPLETED") := by
    rw [List.mem_filter]
    refine ⟨hs, ?_⟩
    simp [hsr, hlatest, hstatus]
  have hlen : 0 < (statuses.filter (fun t =>
      t.rideId == r.id && latestSeq statuses r.id == some t.seq &&
        t.status != "COMPLETED")).length :=
    List.length_pos.mpr (List.ne_nil_of_mem hsmem)
  have hmem2 : (statuses.filter (fun t =>
      t.rideId == r.id && latestSeq statuses r.id == some t.seq &&
        t.status != "COMPLETED")).length ∈
      (rides.filter (fun r => r.userId == userId)).map (fun r =>
        (statuses.filter (fun s =>
          s.rideId == r.id && latestSeq statuses r.id == some s.seq &&
            s.status != "COMPLETED")).length) :=
    List.mem_map_of_mem _ hrmem
  have := List.single_le_sum (l := (rides.filter (fun r => r.userId == userId)).map
      (fun r => (statuses.filter (fun s =>
        s.rideId == r.id && latestSeq statuses r.id == some s.seq &&
          s.status != "COMPLETED")).length)) (by intro x _; exact Nat.zero_le x) _ hmem2
  omega

/-- C2: when the posting user already has a ride whose latest status is not
`COMPLETED`, `appPostRides` answers 409 conflict and commits nothing: no new
ride row, no new status row (and no coupon change). -/
theorem post_rides_conflict (db : RideDb) (userId rideId : String)
    (pickup destination : Coordinate) (nowMs : Int) (statusSeq : Nat)
    (r : Ride) (s : RideStatusRow)
    (hr : r ∈ db.rides) (hu : r.userId = userId)
    (hs : s ∈ db.statuses) (hsr : s.rideId = r.id)
    (hlatest : latestSeq db.statuses r.id = some s.seq)
    (hstatus : s.status ≠ "COMPLETED") :
    appPostRides db userId rideId pickup destination nowMs statusSeq = (409, db) := by
  have hpos := countOngoingRides_pos db.rides db.statuses userId r s
    hr hu hs hsr hlatest hstatus
  unfold appPostRides
  rw [if_pos hpos]

/-- Witness for `post_rides_conflict`: user `u1` has ride `r1` whose latest
status is `ENROUTE`; a second POST returns 409 and leaves the state as is. -/
theorem post_rides_conflict_witness :
    appPostRides
        { rides := [{ id := "r1", userId := "u1", chairId := some "c1"
                      pickupLatitude := 0, pickupLongitude := 0
                      destinationLatitude := 1, destinationLongitude := 1
                      evaluation := none, createdAt := 0, updatedAt := 0 }]
          statuses := [⟨"r1", "MATCHING", 1⟩, ⟨"r1", "ENROUTE", 2⟩]
          coupons := [] }
        "u1" "r2" ⟨2, 2⟩ ⟨3, 3⟩ 10 3 =
      (409,
        { rides := [{ id := "r1", userId := "u1", chairId := some "c1"
                      pickupLatitude := 0, pickupLongitude := 0
                      destinationLatitude := 1, destinationLongitude := 1
                      evaluation := none, createdAt := 0, updatedAt := 0 }]
          statuses := [⟨"r1", "MATCHING", 1⟩, ⟨"r1", "ENROUTE", 2⟩]
          coupons := [] }) :=
  post_rides_conflict _ "u1" "r2" ⟨2, 2⟩ ⟨3, 3⟩ 10 3
    { id := "r1", userId := "u1", chairId := some "c1"
      pickupLatitude := 0, pickupLongitude := 0
      destinationLatitude := 1, destinationLongitude := 1
      evaluation := none, createdAt := 0, updatedAt := 0 }
    ⟨"r1", "ENROUTE", 2⟩
    (by decide) (by decide) (by decide) (by decide) (by decide) (by decide)

/-! ### Chair status endpoint (`chair_handlers.go`: `chairPostRideStatus`; C4, C9) -/

/-- `SELECT ... FROM ride_statuses WHERE ride_id = ? ORDER BY created_at
DESC LIMIT 1` (the row behind `rideStatusesCache` / `getLatestRideStatus`);
ties on `created_at` resolved to the earliest table row, a canonical choice
for the unspecified SQL tie order. -/
def latestStatusRow (statuses : List RideStatusRow) (rideId : String) : Option RideStatusRow :=
  (statuses.filter (fun s => s.rideId == rideId)).foldl
    (fun acc s =>
      match acc with
      | none => some s
      | some b => if b.seq < s.seq then some s else some b)
    none

/-- `getLatestRideStatus`: the status string of the latest status row;
`none` models the `sql.ErrNoRows` error (mapped to HTTP 500 by callers). -/
def latestStatus (statuses : List RideStatusRow) (rideId : String) : Option String :=
  (latestStatusRow statuses rideId).map (fun s => s.status)

/-- Observable outcome of `chairPostRideStatus`: the HTTP status code written
first (Go ignores later `WriteHeader` calls), the committed `ride_statuses`
rows, the `rideStatusesCache.Store` calls, and the events published to the
chair-side and user-side buses. -/
structure ChairStatusResult where
  httpStatus : Nat
  statusInserts : List RideStatusRow
  cacheStores : List (String × String)
  chairPublishes : List (String × String)
  userPublishes : List (String × String)
  deriving Repr, DecidableEq

/-- `chairPostRideStatus` (`chair_handlers.go`). Note two source quirks kept
faithfully: the `ENROUTE` arm inserts without checking the current phase, and
the `default` arm writes a 400 response but does not return, so the function
still commits, stores `req.Status` into the status cache and publishes it. -/
def chairPostRideStatus (rides : List Ride) (statuses : List RideStatusRow)
    (chairId rideId reqStatus : String) (statusSeq : Nat) : ChairStatusResult :=
  match rides.find? (fun r => r.id == rideId) with
  | none => ⟨404, [], [], [], []⟩
  | some ride =>
    if ride.chairId.getD "" ≠ chairId then ⟨400, [], [], [], []⟩
    else
      -- common tail after the switch: commit, cache store, publish to both buses
      let finish := fun (http : Nat) (inserts : List RideStatusRow) =>
        (⟨http, inserts, [(ride.id, reqStatus)], [(chairId, reqStatus)],
          [(ride.userId, reqStatus)]⟩ : ChairStatusResult)
      if reqStatus = "ENROUTE" then
        finish 204 [⟨ride.id, "ENROUTE", statusSeq⟩]
      else if reqStatus = "CARRYING" then
        match latestStatus statuses ride.id with
        | none => ⟨500, [], [], [], []⟩
        | some st =>
          if st ≠ "PICKUP" then ⟨400, [], [], [], []⟩
          else finish 204 [⟨ride.id, "CARRYING", statusSeq⟩]
      else
        finish 400 []

/-- C9: when the ride exists but is assigned to a different chair than the
authenticated one, `chairPostRideStatus` answers 400 and neither records nor
publishes any status transition. -/
theorem chair_status_wrong_chair (rides : List Ride) (statuses : List RideStatusRow)
    (chairId rideId reqStatus : String) (statusSeq : Nat) (ride : Ride)
    (hfind : rides.find? (fun r => r.id == rideId) = some ride)
    (hneq : ride.chairId.getD "" ≠ chairId) :
    chairPostRideStatus rides statuses chairId rideId reqStatus statusSeq =
      ⟨400, [], [], [], []⟩ := by
  unfold chairPostRideStatus
  rw [hfind]
  simp only [if_pos hneq]

/-- Witness for `chair_status_wrong_chair`: chair `c2` posts on ride `r1`
assigned to `c1`. -/
theorem chair_status_wrong_chair_witness :
    chairPostRideStatus
        [{ id := "r1", userId := "u1", chairId := some "c1"
           pickupLatitude := 0, pickupLongitude := 0
           destinationLatitude := 1, destinationLongitude := 1
           evaluation := none, createdAt := 0, updatedAt := 0 }]
        [⟨"r1", "MATCHING", 1⟩] "c2" "r1" "ENROUTE" 2 = ⟨400, [], [], [], []⟩ :=
  chair_status_wrong_chair _ _ "c2" "r1" "ENROUTE" 2
    { id := "r1", userId := "u1", chairId := some "c1"
      pickupLatitude := 0, pickupLongitude := 0
      destinationLatitude := 1, destinationLongitude := 1
      evaluation := none, createdAt := 0, updatedAt := 0 }
    (by decide) (by decide)

/-- Concrete fixture for the C4 counterexample: ride `r1` of user `u1`,
assigned to chair `c1`, whose latest phase is `CARRYING`. -/
def c4Rides : List Ride :=
  [{ id := "r1", userId := "u1", chairId := some "c1"
     pickupLatitude := 0, pickupLongitude := 0
     destinationLatitude := 1, destinationLongitude := 1
     evaluation := none, createdAt := 0, updatedAt := 0 }]

def c4Statuses : List RideStatusRow :=
  [⟨"r1", "MATCHING", 1⟩, ⟨"r1", "MATCHED", 2⟩, ⟨"r1", "ENROUTE", 3⟩,
   ⟨"r1", "PICKUP", 4⟩, ⟨"r1", "CARRYING", 5⟩]

/-- C4 counterexample: (i) the ride's latest phase is `CARRYING`, not
`MATCHED`, yet posting `ENROUTE` succeeds with 204 and records the
transition; (ii) posting the unaccepted status `ARRIVED` does answer 400 and
inserts no `ride_statuses` row, but still stores the requested status in the
ride-status cache and publishes it to both buses. -/
theorem chair_status_claim_counterexample :
    (latestStatus c4Statuses "r1" = some "CARRYING" ∧
      chairPostRideStatus c4Rides c4Statuses "c1" "r1" "ENROUTE" 6 =
        ⟨204, [⟨"r1", "ENROUTE", 6⟩], [("r1", "ENROUTE")], [("c1", "ENROUTE")],
          [("u1", "ENROUTE")]⟩) ∧
    ((chairPostRideStatus c4Rides c4Statuses "c1" "r1" "ARRIVED" 6).httpStatus = 400 ∧
      (chairPostRideStatus c4Rides c4Statuses "c1" "r1" "ARRIVED" 6).statusInserts = [] ∧
      (chairPostRideStatus c4Rides c4Statuses "c1" "r1" "ARRIVED" 6).cacheStores =
        [("r1", "ARRIVED")] ∧
      (chairPostRideStatus c4Rides c4Statuses "c1" "r1" "ARRIVED" 6).userPublishes =
        [("u1", "ARRIVED")]) := by
  decide

/-- C4 amended: the endpoint inserts a status row only for `ENROUTE` and
`CARRYING`; `ENROUTE` is accepted whatever the current phase; `CARRYING`
requires latest phase `PICKUP` and otherwise fails 400 with no effects; any
other requested status yields 400 and no `ride_statuses` row, but the handler
still stores the requested status in the latest-status cache and publishes it
to both buses. -/
theorem chair_status_post_behavior (rides : List Ride) (statuses : List RideStatusRow)
    (chairId rideId reqStatus : String) (statusSeq : Nat) (ride : Ride)
    (hfind : rides.find? (fun r => r.id == rideId) = some ride)
    (hchair : ride.chairId.getD "" = chairId) :
    (reqStatus = "ENROUTE" →
      chairPostRideStatus rides statuses chairId rideId reqStatus statusSeq =
        ⟨204, [⟨ride.id, "ENROUTE", statusSeq⟩], [(ride.id, reqStatus)],
          [(chairId, reqStatus)], [(ride.userId, reqStatus)]⟩) ∧
    (reqStatus = "CARRYING" →
      (latestStatus statuses ride.id = some "PICKUP" →
        chairPostRideStatus rides statuses chairId rideId reqStatus statusSeq =
          ⟨204, [⟨ride.id, "CARRYING", statusSeq⟩], [(ride.id, reqStatus)],
            [(chairId, reqStatus)], [(ride.userId, reqStatus)]⟩) ∧
      (∀ st, latestStatus statuses ride.id = some st → st ≠ "PICKUP" →
        chairPostRideStatus rides statuses chairId rideId reqStatus statusSeq =
          ⟨400, [], [], [], []⟩)) ∧
    (reqStatus ≠ "ENROUTE" → reqStatus ≠ "CARRYING" →
      chairPostRideStatus rides statuses chairId rideId reqStatus statusSeq =
        ⟨400, [], [(ride.id, reqStatus)], [(chairId, reqStatus)],
          [(ride.userId, reqStatus)]⟩) := by
  have hne : ¬ ride.chairId.getD "" ≠ chairId := by simpa using hchair
  refine ⟨?_, ?_, ?_⟩
  · intro hreq
    subst hreq
    unfold chairPostRideStatus
    rw [hfind]
    simp [if_neg hne]
  · intro hreq
    subst hreq
    constructor
    · intro hlatest
      unfold chairPostRideStatus
      rw [hfind]
      simp [if_neg hne, hlatest]
    · intro st hlatest hst
      unfold chairPostRideStatus
      rw [hfind]
      simp [if_neg hne, hlatest, hst]
  · intro h1 h2
    unfold chairPostRideStatus
    rw [hfind]
    simp [if_neg hne, if_neg h1, if_neg h2]

/-- Witness for `chair_status_post_behavior`: chair `c1` posts `CARRYING` on
its ride `r1` whose latest phase is `PICKUP`; the transition is recorded. -/
theorem chair_status_post_behavior_witness :
    chairPostRideStatus
        [{ id := "r1", userId := "u1", chairId := some "c1"
           pickupLatitude := 0, pickupLongitude := 0
           destinationLatitude := 1, destinationLongitude := 1
           evaluation := none, createdAt := 0, updatedAt := 0 }]
        [⟨"r1", "PICKUP", 4⟩] "c1" "r1" "CARRYING" 5 =
      ⟨204, [⟨"r1", "CARRYING", 5⟩], [("r1", "CARRYING")], [("c1", "CARRYING")],
        [("u1", "CARRYING")]⟩ :=
  ((chair_status_post_behavior
      [{ id := "r1", userId := "u1", chairId := some "c1"
         pickupLatitude := 0, pickupLongitude := 0
         destinationLatitude := 1, destinationLongitude := 1
         evaluation := none, createdAt := 0, updatedAt := 0 }]
      [⟨"r1", "PICKUP", 4⟩] "c1" "r1" "CARRYING" 5
      { id := "r1", userId := "u1", chairId := some "c1"
        pickupLatitude := 0, pickupLongitude := 0
        destinationLatitude := 1, destinationLongitude := 1
        evaluation := none, createdAt := 0, updatedAt := 0 }
      (by decide) (by decide)).2.1 rfl).1 (by decide)

/-! ### Ride evaluation (`app_handlers.go`: `appPostRideEvaluatation`; C5) -/

/-- Relational state touched by the evaluation handler. `paymentTokens` maps
a user id to a token row. -/
structure EvalDb where
  rides : List Ride
  statuses : List RideStatusRow
  paymentTokens : List (String × String)
  coupons : List Coupon
  deriving Repr, DecidableEq

/-- Observable outcome of `appPostRideEvaluatation`: the HTTP status, the
committed relational state (`defer tx.Rollback()`: error paths leave the
input state), the amount sent to the payment gateway if it was called, the
`completed_at` value returned on success, and the published events. -/
structure EvalResult where
  httpStatus : Nat
  db : EvalDb
  gatewayAmount : Option Int
  response : Option Int
  chairPublishes : List (String × String)
  userPublishes : List (String × String)
  deriving Repr, DecidableEq

/-- `appPostRideEvaluatation` (`app_handlers.go`). `gatewayOk` is the outcome
of `requestPaymentGatewayPostPayment` (success after at most five retries).
The `RowsAffected == 0` arm of the `UPDATE rides` query is unreachable here
because the ride row was just fetched in the same transaction. -/
def appPostRideEvaluation (db : EvalDb) (rideId : String) (evaluation : Int)
    (nowMs : Int) (statusSeq : Nat) (gatewayOk : Bool) : EvalResult :=
  if evaluation < 1 ∨ 5 < evaluation then ⟨400, db, none, none, [], []⟩
  else
    match db.rides.find? (fun r => r.id == rideId) with
    | none => ⟨404, db, none, none, [], []⟩
    | some ride =>
      match latestStatus db.statuses ride.id with
      | none => ⟨500, db, none, none, [], []⟩
      | some st =>
        if st ≠ "ARRIVED" then ⟨400, db, none, none, [], []⟩
        else
          -- writes staged inside the transaction
          let ride1 := { ride with evaluation := some evaluation, updatedAt := nowMs }
          let rides1 := db.rides.map (fun r => if r.id == rideId then ride1 else r)
          let statuses1 := db.statuses ++ [⟨rideId, "COMPLETED", statusSeq⟩]
          match db.paymentTokens.find? (fun t => t.1 == ride.userId) with
          | none => ⟨400, db, none, none, [], []⟩
          | some _ =>
            let fare := calculateDiscountedFareRide db.coupons ride.id
              ride.pickupLatitude ride.pickupLongitude
              ride.destinationLatitude ride.destinationLongitude
            if gatewayOk then
              ⟨200,
                { db with rides := rides1, statuses := statuses1 },
                some fare, some nowMs,
                [(ride.chairId.getD "", "COMPLETED")], [(ride.userId, "COMPLETED")]⟩
            else
              ⟨502, db, some fare, none, [], []⟩

/-- C5: the evaluation endpoint answers 400 when the evaluation is outside
1..5 or when the ride's latest phase is not `ARRIVED` (committing nothing in
either case), 404 when the ride id is unknown; on success it writes the
evaluation into the ride row, appends a `COMPLETED` status transition, calls
the payment gateway with the discounted fare, and returns the completion
timestamp `now`. -/
theorem ride_evaluation_behavior (db : EvalDb) (rideId : String) (evaluation : Int)
    (nowMs : Int) (statusSeq : Nat) (gatewayOk : Bool) :
    ((evaluation < 1 ∨ 5 < evaluation) →
      appPostRideEvaluation db rideId evaluation nowMs statusSeq gatewayOk =
        ⟨400, db, none, none, [], []⟩) ∧
    (1 ≤ evaluation → evaluation ≤ 5 →
      db.rides.find? (fun r => r.id == rideId) = none →
      appPostRideEvaluation db rideId evaluation nowMs statusSeq gatewayOk =
        ⟨404, db, none, none, [], []⟩) ∧
    (∀ ride st, 1 ≤ evaluation → evaluation ≤ 5 →
      db.rides.find? (fun r => r.id == rideId) = some ride →
      latestStatus db.statuses ride.id = some st → st ≠ "ARRIVED" →
      appPostRideEvaluation db rideId evaluation nowMs statusSeq gatewayOk =
        ⟨400, db, none, none, [], []⟩) ∧
    (∀ ride tok, 1 ≤ evaluation → evaluation ≤ 5 →
      db.rides.find? (fun r => r.id == rideId) = some ride →
      latestStatus db.statuses ride.id = some "ARRIVED" →
      db.paymentTokens.find? (fun t => t.1 == ride.userId) = some tok →
      gatewayOk = true →
      appPostRideEvaluation db rideId evaluation nowMs statusSeq gatewayOk =
        ⟨200,
          { db with
            rides := db.rides.map (fun r =>
              if r.id == rideId then
                { ride with evaluation := some evaluation, updatedAt := nowMs }
              else r)
            statuses := db.statuses ++ [⟨rideId, "COMPLETED", statusSeq⟩] },
          some (calculateDiscountedFareRide db.coupons ride.id
            ride.pickupLatitude ride.pickupLongitude
            ride.destinationLatitude ride.destinationLongitude),
          some nowMs,
          [(ride.chairId.getD "", "COMPLETED")], [(ride.userId, "COMPLETED")]⟩ ∧
      { ride with evaluation := some evaluation, updatedAt := nowMs } ∈
        (appPostRideEvaluation db rideId evaluation nowMs statusSeq gatewayOk).db.rides) := by
  refine ⟨?_, ?_, ?_, ?_⟩
  · intro h
    unfold appPostRideEvaluation
    rw [if_pos h]
  · intro h1 h2 hfind
    unfold appPostRideEvaluation
    rw [if_neg (by omega), hfind]
  · intro ride st h1 h2 hfind hlatest hst
    unfold appPostRideEvaluation
    rw [if_neg (by omega), hfind]
    simp only [hlatest, if_pos hst]
  · intro ride tok h1 h2 hfind hlatest htok hgw
    subst hgw
    have hres : appPostRideEvaluation db rideId evaluation nowMs statusSeq true =
        ⟨200,
          { db with
            rides := db.rides.map (fun r =>
              if r.id == rideId then
                { ride with evaluation := some evaluation, updatedAt := nowMs }
              else r)
            statuses := db.statuses ++ [⟨rideId, "COMPLETED", statusSeq⟩] },
          some (calculateDiscountedFareRide db.coupons ride.id
            ride.pickupLatitude ride.pickupLongitude
            ride.destinationLatitude ride.destinationLongitude),
          some nowMs,
          [(ride.chairId.getD "", "COMPLETED")], [(ride.userId, "COMPLETED")]⟩ := by
      unfold appPostRideEvaluation
      rw [if_neg (by omega), hfind]
      simp only [hlatest]
      rw [if_neg (by simp)]
      rw [htok]
      simp
    refine ⟨hres, ?_⟩
    rw [hres]
    have hmem : ride ∈ db.rides := List.mem_of_find?_eq_some hfind
    have hpred := List.find?_some hfind
    have : (if ride.id == rideId then
        { ride with evaluation := some evaluation, updatedAt := nowMs } else ride) =
        { ride with evaluation := some evaluation, updatedAt := nowMs } := by
      simp only at hpred
      rw [if_pos hpred]
    have h3 := List.mem_map_of_mem
      (fun r => if r.id == rideId then
        ({ ride with evaluation := some evaluation, updatedAt := nowMs } : Ride) else r) hmem
    simp only at h3
    rw [this] at h3
    exact h3

/-- Witness for `ride_evaluation_behavior`: user `u1` evaluates ride `r1`
(phase `ARRIVED`, payment token registered, gateway succeeding) with 5. -/
theorem ride_evaluation_behavior_witness :
    appPostRideEvaluation
        { rides := [{ id := "r1", userId := "u1", chairId := some "c1"
                      pickupLatitude := 0, pickupLongitude := 0
                      destinationLatitude := 2, destinationLongitude := 3
                      evaluation := none, createdAt := 0, updatedAt := 0 }]
          statuses := [⟨"r1", "ARRIVED", 6⟩]
          paymentTokens := [("u1", "tok")]
          coupons := [] }
        "r1" 5 1234 7 true =
      ⟨200,
        { rides := [{ id := "r1", userId := "u1", chairId := some "c1"
                      pickupLatitude := 0, pickupLongitude := 0
                      destinationLatitude := 2, destinationLongitude := 3
                      evaluation := some 5, createdAt := 0, updatedAt := 1234 }]
          statuses := [⟨"r1", "ARRIVED", 6⟩, ⟨"r1", "COMPLETED", 7⟩]
          paymentTokens := [("u1", "tok")]
          coupons := [] },
        some 1000, some 1234, [("c1", "COMPLETED")], [("u1", "COMPLETED")]⟩ := by
  have h := ((ride_evaluation_behavior
      { rides := [{ id := "r1", userId := "u1", chairId := some "c1"
                    pickupLatitude := 0, pickupLongitude := 0
                    destinationLatitude := 2, destinationLongitude := 3
                    evaluation := none, createdAt := 0, updatedAt := 0 }]
        statuses := [⟨"r1", "ARRIVED", 6⟩]
        paymentTokens := [("u1", "tok")]
        coupons := [] }
      "r1" 5 1234 7 true).2.2.2
    { id := "r1", userId := "u1", chairId := some "c1"
      pickupLatitude := 0, pickupLongitude := 0
      destinationLatitude := 2, destinationLongitude := 3
      evaluation := none, createdAt := 0, updatedAt := 0 }
    ("u1", "tok") (by decide) (by decide) (by decide) (by decide) (by decide) rfl).1
  rw [h]
  decide

/-! ### Nearby chairs (`app_handlers.go`: `appGetNearbyChairs`; C8) -/

/-- A row of the `chairs` table (the fields the handler uses). -/
structure NearbyChair where
  id : String
  name : String
  model : String
  isActive : Bool
  deriving Repr, DecidableEq

/-- An element of the `chairs` array in the nearby-chairs response. -/
structure NearbyEntry where
  id : String
  name : String
  model : String
  latitude : Int
  longitude : Int
  deriving Repr, DecidableEq

/-- Per-chair body of the output loop of `appGetNearbyChairs`: skip the chair
if any ride assigned to it has a latest status other than `COMPLETED`
(the source iterates `rideMap[chair.ID]`, the rides with `chair_id` equal to
this active chair's id), skip it if it has no recorded location, and emit it
when within `distance` of the query point. -/
def nearbyChairEntry (locs : String → Option (Int × Int)) (rides : List Ride)
    (statuses : List RideStatusRow) (lat lon dist : Int) (c : NearbyChair) :
    Option NearbyEntry :=
  if rides.any (fun r => r.chairId == some c.id &&
      (latestStatus statuses r.id).getD "" != "COMPLETED") then none
  else
    match locs c.id with
    | none => none
    | some (la, lo) =>
      if calculateDistance lat lon la lo ≤ dist then
        some ⟨c.id, c.name, c.model, la, lo⟩
      else none

/-- `appGetNearbyChairs` (`app_handlers.go`) after query-parameter parsing:
`distArg = none` models an absent `distance` parameter (default 50). `locs`
is the latest `chair_locations` row per chair; `none` on the whole result
models the HTTP 500 taken when a ride assigned to an active chair has no
status row (`getLatestRideStatuses` fails). -/
def appGetNearbyChairs (chairs : List NearbyChair) (locs : String → Option (Int × Int))
    (rides : List Ride) (statuses : List RideStatusRow) (lat lon : Int)
    (distArg : Option Int) : Option (List NearbyEntry) :=
  let dist := distArg.getD 50
  let activeChairs := chairs.filter (fun c => c.isActive)
  if activeChairs.isEmpty then some []
  else
    let chairIDs := activeChairs.map (fun c => c.id)
    let relevantRides := rides.filter (fun r =>
      match r.chairId with
      | some cid => chairIDs.contains cid
      | none => false)
    if relevantRides.any (fun r => (latestStatus statuses r.id).isNone) then none
    else some (activeChairs.filterMap (nearbyChairEntry locs rides statuses lat lon dist))

/-- The ride most recently created for a chair (ties resolved to the earliest
table row). -/
def latestRideOfChair (rides : List Ride) (chairId : String) : Option Ride :=
  (rides.filter (fun r => r.chairId == some chairId)).foldl
    (fun acc r =>
      match acc with
      | none => some r
      | some b => if b.createdAt < r.createdAt then some r else some b)
    none

/-- Modelled from the spec's words for C8 (for comparison with
`appGetNearbyChairs`): return exactly the active chairs with a known latest
location within Manhattan distance of the query point whose latest ride, if
any, is in phase `COMPLETED`. -/
def specNearbyChairs (chairs : List NearbyChair) (locs : String → Option (Int × Int))
    (rides : List Ride) (statuses : List RideStatusRow) (lat lon : Int)
    (distArg : Option Int) : List NearbyEntry :=
  let dist := distArg.getD 50
  let locCheck := fun (c : NearbyChair) =>
    match locs c.id with
    | none => none
    | some (la, lo) =>
      if calculateDistance lat lon la lo ≤ dist then
        some (⟨c.id, c.name, c.model, la, lo⟩ : NearbyEntry)
      else none
  chairs.filterMap (fun c =>
    if c.isActive then
      match latestRideOfChair rides c.id with
      | some r =>
        if latestStatus statuses r.id = some "COMPLETED" then locCheck c else none
      | none => locCheck c
    else none)

/-- Concrete fixture for the C8 counterexample: active chair `c1` at (0,0)
with an old non-completed ride `r1` and a newer completed ride `r2`. -/
def c8Chairs : List NearbyChair := [⟨"c1", "chairA", "AeroSeat", true⟩]

def c8Locs : String → Option (Int × Int) := fun id => if id = "c1" then some (0, 0) else none

def c8Rides : List Ride :=
  [{ id := "r1", userId := "u1", chairId := some "c1"
     pickupLatitude := 0, pickupLongitude := 0
     destinationLatitude := 1, destinationLongitude := 1
     evaluation := none, createdAt := 1, updatedAt := 1 },
   { id := "r2", userId := "u2", chairId := some "c1"
     pickupLatitude := 0, pickupLongitude := 0
     destinationLatitude := 1, destinationLongitude := 1
     evaluation := some 5, createdAt := 2, updatedAt := 2 }]

def c8Statuses : List RideStatusRow := [⟨"r1", "ENROUTE", 1⟩, ⟨"r2", "COMPLETED", 2⟩]

/-- C8 counterexample: chair `c1`'s latest ride `r2` is `COMPLETED`, so the
claim includes it, but the handler checks every ride assigned to the chair
and omits `c1` because the older ride `r1` is still `ENROUTE`. -/
theorem nearby_chairs_claim_counterexample :
    appGetNearbyChairs c8Chairs c8Locs c8Rides c8Statuses 0 0 none = some [] ∧
    specNearbyChairs c8Chairs c8Locs c8Rides c8Statuses 0 0 none =
      [⟨"c1", "chairA", "AeroSeat", 0, 0⟩] := by
  decide

lemma nearbyChairEntry_eq_some_iff (locs : String → Option (Int × Int)) (rides : List Ride)
    (statuses : List RideStatusRow) (lat lon dist : Int) (c : NearbyChair) (e : NearbyEntry) :
    nearbyChairEntry locs rides statuses lat lon dist c = some e ↔
      (rides.any (fun r => r.chairId == some c.id &&
          (latestStatus statuses r.id).getD "" != "COMPLETED") = false ∧
        ∃ la lo, locs c.id = some (la, lo) ∧ calculateDistance lat lon la lo ≤ dist ∧
          e = ⟨c.id, c.name, c.model, la, lo⟩) := by
  unfold nearbyChairEntry
  cases hany : rides.any (fun r => r.chairId == some c.id &&
      (latestStatus statuses r.id).getD "" != "COMPLETED") with
  | true => simp
  | false =>
    simp only [Bool.false_eq_true, if_false, true_and]
    cases hloc : locs c.id with
    | none => simp
    | some p =>
      obtain ⟨la, lo⟩ := p
      by_cases hdist : calculateDistance lat lon la lo ≤ dist
      · simp only [if_pos hdist]
        constructor
        · intro h
          exact ⟨la, lo, rfl, hdist, (Option.some.inj h).symm⟩
        · rintro ⟨la2, lo2, hpair, hd2, he⟩
          obtain ⟨h1, h2⟩ := Prod.mk.injEq .. ▸ Option.some.inj hpair
          subst h1
          subst h2
          rw [he]
      · simp only [if_neg hdist]
        constructor
        · intro h
          cases h
        · rintro ⟨la2, lo2, hpair, hd2, he⟩
          obtain ⟨h1, h2⟩ := Prod.mk.injEq .. ▸ Option.some.inj hpair
          subst h1
          subst h2
          exact absurd hd2 hdist

lemma skip_check_false_of_completed (rides : List Ride) (statuses : List RideStatusRow)
    (c : NearbyChair)
    (h : ∀ r ∈ rides, r.chairId = some c.id → latestStatus statuses r.id = some "COMPLETED") :
    rides.any (fun r => r.chairId == some c.id &&
      (latestStatus statuses r.id).getD "" != "COMPLETED") = false := by
  rw [List.any_eq_false]
  intro r hr
  simp only [Bool.and_eq_true, beq_iff_eq, bne_iff_ne, ne_eq, not_and]
  intro hcid
  rw [h r hr hcid]
  simp

lemma completed_of_skip_check_false (rides : List Ride) (statuses : List RideStatusRow)
    (c : NearbyChair)
    (hany : rides.any (fun r => r.chairId == some c.id &&
      (latestStatus statuses r.id).getD "" != "COMPLETED") = false)
    (r : Ride) (hr : r ∈ rides) (hcid : r.chairId = some c.id)
    (hsome : (latestStatus statuses r.id).isSome = true) :
    latestStatus statuses r.id = some "COMPLETED" := by
  rw [List.any_eq_false] at hany
  have := hany r hr
  simp only [Bool.and_eq_true, beq_iff_eq, bne_iff_ne, ne_eq, not_and] at this
  have h2 := this hcid
  obtain ⟨s, hs⟩ := Option.isSome_iff_exists.mp hsome
  rw [hs] at h2 ⊢
  simp only [Option.getD_some] at h2
  simp only [Option.some.injEq]
  by_contra hne
  exact h2 fun hcon => hne hcon

/-- C8 amended: when every ride assigned to an active chair has a recorded
status (otherwise the handler answers 500) and chair ids are unique, the
nearby-chairs handler returns exactly the active chairs with a known latest
location within the Manhattan distance bound of the query point **none of
whose assigned rides** (not just the latest one) has a latest phase other
than `COMPLETED`; chairs with no recorded location are omitted. -/
theorem nearby_chairs_behavior (chairs : List NearbyChair)
    (locs : String → Option (Int × Int)) (rides : List Ride)
    (statuses : List RideStatusRow) (lat lon : Int) (distArg : Option Int)
    (hnodup : (chairs.map (fun c => c.id)).Nodup)
    (hstat : ∀ r ∈ rides, ∀ c ∈ chairs, r.chairId = some c.id → c.isActive = true →
      (latestStatus statuses r.id).isSome = true) :
    ∃ l, appGetNearbyChairs chairs locs rides statuses lat lon distArg = some l ∧
      (∀ c ∈ chairs,
        ((∃ la lo, (⟨c.id, c.name, c.model, la, lo⟩ : NearbyEntry) ∈ l) ↔
          (c.isActive = true ∧
            (∀ r ∈ rides, r.chairId = some c.id →
              latestStatus statuses r.id = some "COMPLETED") ∧
            (∃ la lo, locs c.id = some (la, lo) ∧
              calculateDistance lat lon la lo ≤ distArg.getD 50)))) ∧
      (∀ e ∈ l, ∃ c ∈ chairs, c.isActive = true ∧
        e = ⟨c.id, c.name, c.model, e.latitude, e.longitude⟩ ∧
        locs c.id = some (e.latitude, e.longitude) ∧
        calculateDistance lat lon e.latitude e.longitude ≤ distArg.getD 50 ∧
        (∀ r ∈ rides, r.chairId = some c.id →
          latestStatus statuses r.id = some "COMPLETED")) := by
  by_cases hempty : (chairs.filter (fun c => c.isActive)).isEmpty
  · refine ⟨[], ?_, ?_, ?_⟩
    · simp [appGetNearbyChairs, hempty]
    · intro c hc
      constructor
      · rintro ⟨la, lo, hmem⟩
        exact absurd hmem (List.not_mem_nil _)
      · rintro ⟨hact, -, -⟩
        have hcmem : c ∈ chairs.filter (fun c => c.isActive) :=
          List.mem_filter.mpr ⟨hc, by simp [hact]⟩
        rw [List.isEmpty_iff] at hempty
        rw [hempty] at hcmem
        exact absurd hcmem (List.not_mem_nil _)
    · intro e he
      exact absurd he (List.not_mem_nil _)
  · have h500 : (rides.filter (fun r =>
        match r.chairId with
        | some cid => ((chairs.filter (fun c => c.isActive)).map (fun c => c.id)).contains cid
        | none => false)).any (fun r => (latestStatus statuses r.id).isNone) = false := by
      rw [List.any_eq_false]
      intro r hr
      obtain ⟨hrmem, hpred⟩ := List.mem_filter.mp hr
      cases hcid : r.chairId with
      | none => rw [hcid] at hpred; cases hpred
      | some cid =>
        rw [hcid] at hpred
        have hmemid : cid ∈ (chairs.filter (fun c => c.isActive)).map (fun c => c.id) := by
          have := List.contains_iff_exists_mem_beq.mp hpred
          obtain ⟨x, hx, hbeq⟩ := this
          rw [beq_iff_eq] at hbeq
          rw [hbeq]
          exact hx
        obtain ⟨c, hcact, hcid2⟩ := List.mem_map.mp hmemid
        obtain ⟨hcchairs, hcatv⟩ := List.mem_filter.mp hcact
        have hsome := hstat r hrmem c hcchairs (by rw [hcid, hcid2]) (by simpa using hcatv)
        simp only [Option.isNone_iff_eq_none]
        intro hnone
        rw [hnone] at hsome
        cases hsome
    refine ⟨(chairs.filter (fun c => c.isActive)).filterMap
      (nearbyChairEntry locs rides statuses lat lon (distArg.getD 50)), ?_, ?_, ?_⟩
    · simp only [appGetNearbyChairs, h500]
      rw [if_neg hempty]
      simp
    · intro c hc
      constructor
      · rintro ⟨la, lo, hmem⟩
        obtain ⟨c2, hc2act, hf⟩ := List.mem_filterMap.mp hmem
        obtain ⟨hany, la2, lo2, hlocs2, hdist2, he⟩ :=
          (nearbyChairEntry_eq_some_iff locs rides statuses lat lon
            (distArg.getD 50) c2 _).mp hf
        obtain ⟨hid, -, -, hla, hlo⟩ := NearbyEntry.mk.injEq .. ▸ he
        obtain ⟨hc2chairs, hc2atv⟩ := List.mem_filter.mp hc2act
        have hceq : c2 = c :=
          (List.inj_on_of_nodup_map hnodup) hc2chairs hc hid.symm
        subst hceq
        refine ⟨by simpa using hc2atv, ?_, la2, lo2, hlocs2, hdist2⟩
        intro r hr hcid
        exact completed_of_skip_check_false rides statuses c2 hany r hr hcid
          (hstat r hr c2 hc2chairs hcid (by simpa using hc2atv))
      · rintro ⟨hact, hcompleted, la, lo, hlocs, hdist⟩
        refine ⟨la, lo, List.mem_filterMap.mpr ⟨c, List.mem_filter.mpr ⟨hc, by simp [hact]⟩, ?_⟩⟩
        rw [nearbyChairEntry_eq_some_iff]
        exact ⟨skip_check_false_of_completed rides statuses c hcompleted,
          la, lo, hlocs, hdist, rfl⟩
    · intro e he
      obtain ⟨c2, hc2act, hf⟩ := List.mem_filterMap.mp he
      obtain ⟨hany, la2, lo2, hlocs2, hdist2, he2⟩ :=
        (nearbyChairEntry_eq_some_iff locs rides statuses lat lon
          (distArg.getD 50) c2 _).mp hf
      obtain ⟨hc2chairs, hc2atv⟩ := List.mem_filter.mp hc2act
      subst he2
      refine ⟨c2, hc2chairs, by simpa using hc2atv, rfl, hlocs2, hdist2, ?_⟩
      intro r hr hcid
      exact completed_of_skip_check_false rides statuses c2 hany r hr hcid
        (hstat r hr c2 hc2chairs hcid (by simpa using hc2atv))

/-- Witness for `nearby_chairs_behavior`: one active chair at the origin with
a completed ride; the handler reports it within the default distance. -/
theorem nearby_chairs_behavior_witness :
    ∃ l, appGetNearbyChairs [⟨"c1", "chairA", "AeroSeat", true⟩]
        (fun id => if id = "c1" then some (0, 0) else none)
        [{ id := "r2", userId := "u2", chairId := some "c1"
           pickupLatitude := 0, pickupLongitude := 0
           destinationLatitude := 1, destinationLongitude := 1
           evaluation := some 5, createdAt := 2, updatedAt := 2 }]
        [⟨"r2", "COMPLETED", 2⟩] 0 0 none = some l ∧
      (∀ c ∈ [(⟨"c1", "chairA", "AeroSeat", true⟩ : NearbyChair)],
        ((∃ la lo, (⟨c.id, c.name, c.model, la, lo⟩ : NearbyEntry) ∈ l) ↔
          (c.isActive = true ∧
            (∀ r ∈ ([{ id := "r2", userId := "u2", chairId := some "c1"
                       pickupLatitude := 0, pickupLongitude := 0
                       destinationLatitude := 1, destinationLongitude := 1
                       evaluation := some 5, createdAt := 2, updatedAt := 2 }] : List Ride),
              r.chairId = some c.id →
              latestStatus [⟨"r2", "COMPLETED", 2⟩] r.id = some "COMPLETED") ∧
            (∃ la lo, (fun id => if id = "c1" then some ((0 : Int), (0 : Int)) else none) c.id =
                some (la, lo) ∧
              calculateDistance 0 0 la lo ≤ (none : Option Int).getD 50)))) ∧
      (∀ e ∈ l, ∃ c ∈ [(⟨"c1", "chairA", "AeroSeat", true⟩ : NearbyChair)], c.isActive = true ∧
        e = ⟨c.id, c.name, c.model, e.latitude, e.longitude⟩ ∧
        (fun id => if id = "c1" then some ((0 : Int), (0 : Int)) else none) c.id =
          some (e.latitude, e.longitude) ∧
        calculateDistance 0 0 e.latitude e.longitude ≤ (none : Option Int).getD 50 ∧
        (∀ r ∈ ([{ id := "r2", userId := "u2", chairId := some "c1"
                   pickupLatitude := 0, pickupLongitude := 0
                   destinationLatitude := 1, destinationLongitude := 1
                   evaluation := some 5, createdAt := 2, updatedAt := 2 }] : List Ride),
          r.chairId = some c.id →
          latestStatus [⟨"r2", "COMPLETED", 2⟩] r.id = some "COMPLETED")) :=
  nearby_chairs_behavior _ _ _ _ 0 0 none (by decide)
    (by
      intro r hr c hc h1 h2
      fin_cases hr
      fin_cases hc
      decide)

/-! ### Dispatcher matcher (`src/unnamed/part_003`: `internalGetMatching`; C1)

Float64 score arithmetic is embedded as exact `Rat` arithmetic. One remark on
division: a chair model absent from `chairModelSpeedCache` yields a Go map
zero value and a float division by zero; in `Rat` the division is 0. Every
chair the matcher sees carries a model from the static table, where speeds
are positive, so the two semantics agree there. -/

/-- `chairModelSpeedCache` (`internal_handlers.go`). -/
def chairModelSpeedCache : List (String × Int) :=
  [("AeroSeat", 3), ("Aurora Glow", 7), ("BalancePro", 3), ("ComfortBasic", 2),
   ("EasySit", 2), ("ErgoFlex", 3), ("Infinity Seat", 5), ("Legacy Chair", 7),
   ("LiteLine", 2), ("LuxeThrone", 5), ("Phoenix Ultra", 7), ("ShadowEdition", 7),
   ("SitEase", 2), ("StyleSit", 3), ("Titanium Line", 5), ("ZenComfort", 5),
   ("アルティマシート X", 5), ("インフィニティ GEAR V", 7), ("インペリアルクラフト LUXE", 5),
   ("ヴァーチェア SUPREME", 7), ("エアシェル ライト", 2), ("エアフロー EZ", 3),
   ("エコシート リジェネレイト", 7), ("エルゴクレスト II", 3), ("オブシディアン PRIME", 7),
   ("クエストチェア Lite", 3), ("ゲーミングシート NEXUS", 3), ("シェルシート ハイブリッド", 3),
   ("シャドウバースト M", 5), ("ステルスシート ROGUE", 5), ("ストリームギア S1", 3),
   ("スピンフレーム 01", 2), ("スリムライン GX", 5), ("ゼノバース ALPHA", 7),
   ("ゼンバランス EX", 5), ("タイタンフレーム ULTRA", 7), ("チェアエース S", 2),
   ("ナイトシート ブラックエディション", 7), ("フォームライン RX", 3),
   ("フューチャーステップ VISION", 7), ("フューチャーチェア CORE", 5),
   ("プレイスタイル Z", 3), ("フレックスコンフォート PRO", 3),
   ("プレミアムエアチェア ZETA", 5), ("プロゲーマーエッジ X1", 5),
   ("ベーシックスツール プラス", 2), ("モーションチェア RISE", 5),
   ("リカーブチェア スマート", 3), ("リラックスシート NEO", 2), ("リラックス座", 2),
   ("ルミナスエアクラウン", 7), ("匠座 PRO LIMITED", 7), ("匠座（たくみざ）プレミアム", 7),
   ("雅楽座", 5), ("風雅（ふうが）チェア", 3)]

/-- Go map read `chairModelSpeedCache[ch.Model]` (missing key: zero value). -/
def chairSpeed (model : String) : Int :=
  match chairModelSpeedCache.find? (fun p => p.1 == model) with
  | some p => p.2
  | none => 0

/-- The fields of a `Chair` the matcher uses. -/
structure MatchChair where
  id : String
  model : String
  deriving Repr, DecidableEq

/-- The fields of a `Ride` the matcher uses (`createdAtMs`: `CreatedAt`). -/
structure MatchRide where
  id : String
  userId : String
  pickupLatitude : Int
  pickupLongitude : Int
  destinationLatitude : Int
  destinationLongitude : Int
  createdAtMs : Int
  deriving Repr, DecidableEq

/-- The `manhattanDistance` closure inside `internalGetMatching`. -/
def manhattanDistance (x1 y1 x2 y2 : Int) : Int :=
  (if x1 - x2 < 0 then -(x1 - x2) else x1 - x2) +
    (if y1 - y2 < 0 then -(y1 - y2) else y1 - y2)

/-- An element of the `matches` slice. -/
structure MatchCand where
  rideId : String
  userId : String
  chairId : String
  score : ℚ
  deriving Repr, DecidableEq

/-- `isInBenchmark := !benchStartedAt.IsZero() && benchStartedAt.Add(60s).After(now)`;
the zero `time.Time` is modelled as millisecond value 0. -/
def isInBenchmark (benchStartedAtMs nowMs : Int) : Bool :=
  decide (benchStartedAtMs ≠ 0) && decide (benchStartedAtMs + 60000 > nowMs)

/-- Score computed by `internalGetMatching` for one (ride, chair) pair,
including the benchmark warm-down override of `loss`. -/
def codeScore (benchStartedAtMs nowMs : Int) (ride : MatchRide) (ch : MatchChair)
    (loc : chairLocation) : ℚ :=
  let pd : ℚ := (manhattanDistance ride.pickupLatitude ride.pickupLongitude
      loc.LastLatitude loc.LastLongitude : ℚ) / (chairSpeed ch.model : ℚ)
  let dd : ℚ := (manhattanDistance ride.pickupLatitude ride.pickupLongitude
      ride.destinationLatitude ride.destinationLongitude : ℚ)
  let age : Int := nowMs - ride.createdAtMs
  let loss0 : ℚ := ((age : ℚ) / 5000) ^ 4
  let loss1 : ℚ := if age > 22000 then loss0 + 100000 else loss0
  let isNoAgeLimit := isInBenchmark benchStartedAtMs nowMs &&
    decide (ride.createdAtMs > benchStartedAtMs + 35000)
  let loss : ℚ := if isNoAgeLimit then 8 - (((age : ℚ) + 1) / 1000) ^ 3 else loss1
  dd - 100 * pd + 100000 * loss

/-- Modelled from the spec's words for C1 (for comparison with `codeScore`):
`pd = manhattan(pickup, chairLoc)/speed`, `dd = manhattan(pickup, dest)`,
`age = now − createdAt`, `loss = (age/5000)^4` plus 100000 when
`age > 22000`, `score = dd − 100·pd + 100000·loss`. -/
def specScore (nowMs : Int) (ride : MatchRide) (ch : MatchChair)
    (loc : chairLocation) : ℚ :=
  let pd : ℚ := (manhattanDistance ride.pickupLatitude ride.pickupLongitude
      loc.LastLatitude loc.LastLongitude : ℚ) / (chairSpeed ch.model : ℚ)
  let dd : ℚ := (manhattanDistance ride.pickupLatitude ride.pickupLongitude
      ride.destinationLatitude ride.destinationLongitude : ℚ)
  let age : Int := nowMs - ride.createdAtMs
  let loss : ℚ := ((age : ℚ) / 5000) ^ 4 + (if age > 22000 then 100000 else 0)
  dd - 100 * pd + 100000 * loss

/-- The candidate-generation double loop: one entry per (ride, chair) pair
whose chair has a known location in the badger store. -/
def candidatesWith (score : MatchRide → MatchChair → chairLocation → ℚ)
    (rides : List MatchRide) (chairs : List MatchChair)
    (loc : String → Option chairLocation) : List MatchCand :=
  (rides.map (fun ride => chairs.filterMap (fun ch =>
    match loc ch.id with
    | none => none
    | some l => some ⟨ride.id, ride.userId, ch.id, score ride ch l⟩))).flatten

/-- The `chairMap` dedup step: Go builds `map[string]*Chair` and iterates it;
the iteration order is arbitrary, modelled canonically as first occurrence. -/
def dedupChairsAux : List MatchChair → List String → List MatchChair
  | [], _ => []
  | ch :: rest, seen =>
    if seen.contains ch.id then dedupChairsAux rest seen
    else ch :: dedupChairsAux rest (ch.id :: seen)

def dedupChairs (chairs : List MatchChair) : List MatchChair :=
  dedupChairsAux chairs []

/-- Descending insertion: `slices.SortFunc(matches, cmp.Compare(b.score,
a.score))` sorts by score descending (tie order unspecified in Go; the
canonical stable order is used here). -/
def insertDesc (m : MatchCand) : List MatchCand → List MatchCand
  | [] => [m]
  | x :: xs => if x.score ≤ m.score then m :: x :: xs else x :: insertDesc m xs

def sortDesc : List MatchCand → List MatchCand
  | [] => []
  | m :: ms => insertDesc m (sortDesc ms)

/-- The greedy assignment loop with `matchedChairIDMap`/`matchedRideIDMap`:
a pair is taken iff neither its chair nor its ride was assigned earlier in
this pass. Returns the `(rideId, chairId)` assignments in order. -/
def greedyAssign : List MatchCand → List String → List String → List (String × String)
  | [], _, _ => []
  | m :: ms, matchedChairs, matchedRides =>
    if matchedChairs.contains m.chairId then greedyAssign ms matchedChairs matchedRides
    else if matchedRides.contains m.rideId then greedyAssign ms matchedChairs matchedRides
    else (m.rideId, m.chairId) ::
      greedyAssign ms (m.chairId :: matchedChairs) (m.rideId :: matchedRides)

/-- `internalGetMatching` (`src/unnamed/part_003`), from the snapshot of the
pending-ride queue and the idle-chair pool to the list of assignments made in
this pass. -/
def internalGetMatching (rides : List MatchRide) (chairs : List MatchChair)
    (loc : String → Option chairLocation) (nowMs benchStartedAtMs : Int) :
    List (String × String) :=
  greedyAssign
    (sortDesc (candidatesWith (codeScore benchStartedAtMs nowMs) rides
      (dedupChairs chairs) loc)) [] []

/-- Modelled from the spec's words for C1: same pipeline with the claim's
score formula and no benchmark override. -/
def specMatching (rides : List MatchRide) (chairs : List MatchChair)
    (loc : String → Option chairLocation) (nowMs : Int) : List (String × String) :=
  greedyAssign (sortDesc (candidatesWith (specScore nowMs) rides chairs loc)) [] []

/-- Concrete fixture for the C1 counterexample: a benchmark pass (started at
1 ms, now 40001 ms) with one chair at the origin and two rides from the
origin; `R1` was created inside the warm-down window. -/
def c1Rides : List MatchRide :=
  [⟨"R1", "u1", 0, 0, 0, 0, 39001⟩, ⟨"R2", "u2", 0, 0, 0, 0, 34001⟩]

def c1Chairs : List MatchChair := [⟨"c1", "AeroSeat"⟩]

def c1Loc : String → Option chairLocation :=
  fun id => if id = "c1" then some ⟨0, 0, 0, 0⟩ else none

/-- C1 counterexample: during a benchmark run the warm-down override replaces
the claimed loss formula, flipping the assignment. Under the claim's formula
the chair goes to `R2` (score 207360 beats 160), but the code scores `R1` at
`100000·(8 − (1001/1000)^3) ≈ 699700` and assigns the chair to `R1`. -/
theorem matcher_claim_counterexample :
    internalGetMatching c1Rides c1Chairs c1Loc 40001 1 = [("R1", "c1")] ∧
    specMatching c1Rides c1Chairs c1Loc 40001 = [("R2", "c1")] := by
  constructor
  · norm_num [internalGetMatching, candidatesWith, codeScore, dedupChairs, dedupChairsAux,
      sortDesc, insertDesc, greedyAssign, isInBenchmark, chairSpeed, chairModelSpeedCache,
      manhattanDistance, c1Rides, c1Chairs, c1Loc]
  · norm_num [specMatching, candidatesWith, specScore, sortDesc, insertDesc, greedyAssign,
      chairSpeed, chairModelSpeedCache, manhattanDistance, c1Rides, c1Chairs, c1Loc]

lemma codeScore_eq_specScore (benchStartedAtMs nowMs : Int)
    (hbench : isInBenchmark benchStartedAtMs nowMs = false)
    (ride : MatchRide) (ch : MatchChair) (loc : chairLocation) :
    codeScore benchStartedAtMs nowMs ride ch loc = specScore nowMs ride ch loc := by
  simp only [codeScore, specScore, hbench, Bool.false_and, Bool.false_eq_true, if_false]
  by_cases hage : nowMs - ride.createdAtMs > 22000
  · simp only [if_pos hage]
  · simp only [if_neg hage]
    ring

lemma candidatesWith_congr (f g : MatchRide → MatchChair → chairLocation → ℚ)
    (h : ∀ r c l, f r c l = g r c l) (rides : List MatchRide) (chairs : List MatchChair)
    (loc : String → Option chairLocation) :
    candidatesWith f rides chairs loc = candidatesWith g rides chairs loc := by
  unfold candidatesWith
  have hfun : (fun ride => chairs.filterMap (fun ch =>
      match loc ch.id with
      | none => none
      | some l => some (⟨ride.id, ride.userId, ch.id, f ride ch l⟩ : MatchCand))) =
      (fun ride => chairs.filterMap (fun ch =>
        match loc ch.id with
        | none => none
        | some l => some (⟨ride.id, ride.userId, ch.id, g ride ch l⟩ : MatchCand))) := by
    funext ride
    congr 1
    funext ch
    cases loc ch.id with
    | none => rfl
    | some l => simp [h]
  rw [hfun]

lemma dedupChairsAux_eq_self (chairs : List MatchChair) :
    ∀ seen, (chairs.map (fun c => c.id)).Nodup →
      (∀ c ∈ chairs, seen.contains c.id = false) →
      dedupChairsAux chairs seen = chairs := by
  induction chairs with
  | nil => intro seen _ _; rfl
  | cons ch rest ih =>
    intro seen hnodup hseen
    have hnodup2 := hnodup
    simp only [List.map_cons, List.nodup_cons] at hnodup2
    obtain ⟨hhead, htail⟩ := hnodup2
    have hch : seen.contains ch.id = false := hseen ch (List.mem_cons_self _ _)
    unfold dedupChairsAux
    rw [hch]
    simp only [Bool.false_eq_true, if_false]
    congr 1
    apply ih _ htail
    intro c hc
    have hne : c.id ≠ ch.id := by
      intro heq
      exact hhead (heq ▸ List.mem_map_of_mem _ hc)
    have hbeq : (c.id == ch.id) = false := beq_eq_false_iff_ne.mpr hne
    have hsc : seen.contains c.id = false := hseen c (List.mem_cons_of_mem _ hc)
    rw [List.contains_cons, hbeq, hsc]
    rfl

lemma greedyAssign_rides_nodup (ms : List MatchCand) :
    ∀ mc mr : List String,
      ((greedyAssign ms mc mr).map Prod.fst).Nodup ∧
      ∀ x ∈ (greedyAssign ms mc mr).map Prod.fst, mr.contains x = false := by
  induction ms with
  | nil =>
    intro mc mr
    exact ⟨List.nodup_nil, by intro x hx; cases hx⟩
  | cons m ms ih =>
    intro mc mr
    unfold greedyAssign
    by_cases h1 : mc.contains m.chairId
    · simp only [h1, if_true]
      exact ih mc mr
    · simp only [h1, Bool.false_eq_true, if_false]
      by_cases h2 : mr.contains m.rideId
      · simp only [h2, if_true]
        exact ih mc mr
      · simp only [h2, Bool.false_eq_true, if_false]
        obtain ⟨hnd, hdis⟩ := ih (m.chairId :: mc) (m.rideId :: mr)
        constructor
        · simp only [List.map_cons]
          rw [List.nodup_cons]
          refine ⟨?_, hnd⟩
          intro hmem
          have hcon := hdis _ hmem
          simp [List.contains_cons] at hcon
        · intro x hx
          simp only [List.map_cons, List.mem_cons] at hx
          rcases hx with rfl | hx
          · simpa using h2
          · have hcon := hdis x hx
            simp only [List.contains_cons, Bool.or_eq_false_iff] at hcon
            exact hcon.2

lemma greedyAssign_chairs_nodup (ms : List MatchCand) :
    ∀ mc mr : List String,
      ((greedyAssign ms mc mr).map Prod.snd).Nodup ∧
      ∀ x ∈ (greedyAssign ms mc mr).map Prod.snd, mc.contains x = false := by
  induction ms with
  | nil =>
    intro mc mr
    exact ⟨List.nodup_nil, by intro x hx; cases hx⟩
  | cons m ms ih =>
    intro mc mr
    unfold greedyAssign
    by_cases h1 : mc.contains m.chairId
    · simp only [h1, if_true]
      exact ih mc mr
    · simp only [h1, Bool.false_eq_true, if_false]
      by_cases h2 : mr.contains m.rideId
      · simp only [h2, if_true]
        exact ih mc mr
      · simp only [h2, Bool.false_eq_true, if_false]
        obtain ⟨hnd, hdis⟩ := ih (m.chairId :: mc) (m.rideId :: mr)
        constructor
        · simp only [List.map_cons]
          rw [List.nodup_cons]
          refine ⟨?_, hnd⟩
          intro hmem
          have hcon := hdis _ hmem
          simp [List.contains_cons] at hcon
        · intro x hx
          simp only [List.map_cons, List.mem_cons] at hx
          rcases hx with rfl | hx
          · simpa using h1
          · have hcon := hdis x hx
            simp only [List.contains_cons, Bool.or_eq_false_iff] at hcon
            exact hcon.2

/-- C1 amended: outside a benchmark run the dispatcher pass is exactly the
claim's pipeline — for every pending ride and every idle chair with a known
location it scores the pair with `pd`, `dd`, `age`,
`loss = (age/5000)^4 (+100000 when age > 22000)`,
`score = dd − 100·pd + 100000·loss`, sorts candidates by score descending and
assigns greedily — and (benchmark or not) each ride and each chair is
assigned at most once per pass. During a benchmark run, rides created more
than 35 s after the benchmark start get `loss = 8 − ((age+1)/1000)^3`
instead. -/
theorem matcher_behavior (rides : List MatchRide) (chairs : List MatchChair)
    (loc : String → Option chairLocation) (nowMs benchStartedAtMs : Int)
    (hnodup : (chairs.map (fun c => c.id)).Nodup)
    (hbench : isInBenchmark benchStartedAtMs nowMs = false) :
    internalGetMatching rides chairs loc nowMs benchStartedAtMs =
      specMatching rides chairs loc nowMs ∧
    ((internalGetMatching rides chairs loc nowMs benchStartedAtMs).map Prod.fst).Nodup ∧
    ((internalGetMatching rides chairs loc nowMs benchStartedAtMs).map Prod.snd).Nodup := by
  have hdedup : dedupChairs chairs = chairs :=
    dedupChairsAux_eq_self chairs [] hnodup (fun c _ => rfl)
  refine ⟨?_, ?_, ?_⟩
  · unfold internalGetMatching specMatching
    rw [hdedup,
      candidatesWith_congr _ _ (codeScore_eq_specScore benchStartedAtMs nowMs hbench)]
  · exact (greedyAssign_rides_nodup _ [] []).1
  · exact (greedyAssign_chairs_nodup _ [] []).1

/-- Witness for `matcher_behavior`: a non-benchmark pass (`benchStartedAt`
zero) with one ride and one chair. -/
theorem matcher_behavior_witness :
    (([⟨"c9", "LuxeThrone"⟩] : List MatchChair).map (fun c => c.id)).Nodup ∧
    isInBenchmark 0 5000 = false ∧
    (internalGetMatching [⟨"R9", "u9", 0, 0, 3, 4, 1000⟩] [⟨"c9", "LuxeThrone"⟩]
        (fun id => if id = "c9" then some ⟨0, 1, 2, 0⟩ else none) 5000 0 =
      specMatching [⟨"R9", "u9", 0, 0, 3, 4, 1000⟩] [⟨"c9", "LuxeThrone"⟩]
        (fun id => if id = "c9" then some ⟨0, 1, 2, 0⟩ else none) 5000 ∧
    ((internalGetMatching [⟨"R9", "u9", 0, 0, 3, 4, 1000⟩] [⟨"c9", "LuxeThrone"⟩]
        (fun id => if id = "c9" then some ⟨0, 1, 2, 0⟩ else none) 5000 0).map Prod.fst).Nodup ∧
    ((internalGetMatching [⟨"R9", "u9", 0, 0, 3, 4, 1000⟩] [⟨"c9", "LuxeThrone"⟩]
        (fun id => if id = "c9" then some ⟨0, 1, 2, 0⟩ else none) 5000 0).map Prod.snd).Nodup) :=
  ⟨by decide, rfl,
    matcher_behavior [⟨"R9", "u9", 0, 0, 3, 4, 1000⟩] [⟨"c9", "LuxeThrone"⟩]
      (fun id => if id = "c9" then some ⟨0, 1, 2, 0⟩ else none) 5000 0 (by decide) rfl⟩

end Isuride
